import Mathlib

/-!
Shallow embedding of the session actor of plover-websocket-relay
(`src/relay-session.mjs`, class `RelaySession`), together with the constant
tables it uses (`constants/tags.mjs`, `constants/slugs.mjs`).

The durable key-value store is modelled as a record whose fields correspond
one-to-one to the storage keys the actor reads and writes
(`tabletConnectionToken`, `pcConnectionToken`, `tabletIdCounter`) plus the
single armed alarm (`setAlarm` / `deleteAlarm`).  The host socket registry is
a list of accepted connections carrying the exact tag strings the actor
attaches (`type:<clientType>` and `id:<clientId>`).  Handlers are pure
functions from state and input to state plus a list of observable effects
(socket sends and socket closes).  Randomness (`getNewToken`) and the clock
(`Date.now()`) enter as oracle fields of the request/event.
-/

namespace PloverRelay

/-- Device tag values from `constants/tags.mjs` (`deviceTags.PC`). -/
def deviceTags.PC : String := "pc"

/-- Device tag values from `constants/tags.mjs` (`deviceTags.TABLET`). -/
def deviceTags.TABLET : String := "tablet"

/-- Device tag values from `constants/tags.mjs` (`deviceTags.UNKNOWN`). -/
def deviceTags.UNKNOWN : String := "unknown"

/-- Tag key from `constants/tags.mjs` (`websocketTags.TYPE`). -/
def websocketTags.TYPE : String := "type"

/-- Tag key from `constants/tags.mjs` (`websocketTags.ID`). -/
def websocketTags.ID : String := "id"

/-- Label `labels.PC_TYPE` = `type:pc`. -/
def labels.PC_TYPE : String := "type:pc"

/-- Label `labels.TABLET_TYPE` = `type:tablet`. -/
def labels.TABLET_TYPE : String := "type:tablet"

/-- Label `labels.INVALID_TOKEN`. -/
def labels.INVALID_TOKEN : String := "Invalid token"

/-- Label `labels.SYSTEM`. -/
def labels.SYSTEM : String := "system"

/-- Label `labels.CONNECTION_ESTABLISHED`. -/
def labels.CONNECTION_ESTABLISHED : String := "Connection established"

/-- Label `labels.INITIALIZATION_SUCCESSFUL`. -/
def labels.INITIALIZATION_SUCCESSFUL : String := "Initialization successful"

/-- Label `labels.EXPECTED_WEBSOCKET`. -/
def labels.EXPECTED_WEBSOCKET : String := "Expected WebSocket"

/-- Label whose source name is `SESSION_CLOSED_BY_CLIENT` followed by
the underscore-separated word for a leading sentinel; its value is the
string `Session closed by`. -/
def labels.SESSION_CLOSED_BY_CLIENT : String := "Session closed by"

/-- Label `labels.LAST_TABLET_DISCONNECTED`. -/
def labels.LAST_TABLET_DISCONNECTED : String := "Last tablet disconnected"

/-- Label `labels.CLOSE_CMD`. -/
def labels.CLOSE_CMD : String := "close"

/-- Label `labels.GET_PARTICIPANTS_CMD`. -/
def labels.GET_PARTICIPANTS_CMD : String := "get_participants"

/-- Label `labels.TABLET_CONNECTED` = `tablet_connected`. -/
def labels.TABLET_CONNECTED : String := "tablet_connected"

/-- Label `labels.PARTICIPANTS_LIST`. -/
def labels.PARTICIPANTS_LIST : String := "participants_list"

/-- Slug `slugs.CONNECT` from `constants/slugs.mjs`. -/
def slugs.CONNECT : String := "connect"

/-- Slug `slugs.JOIN` from `constants/slugs.mjs`. -/
def slugs.JOIN : String := "join"

/-- WebSocket close code `WsStatusCodes.NORMAL_CLOSURE`. -/
def wsStatusCodes.NORMAL_CLOSURE : Nat := 1000

/-- `RelaySession.sessionAlarmTime` = `5 * 60 * 1000` milliseconds. -/
def sessionAlarmTime : Nat := 5 * 60 * 1000

/-- `RelaySession.keepAliveInterval` = `30 * 1000` milliseconds. -/
def keepAliveInterval : Nat := 30 * 1000

/-- Result of JavaScript's `parseInt` as used by `getClientInfo`:
either a number, or `NaN` when no digits are found; a client-info `id`
that was never set stays `null`. -/
inductive JsVal where
  | null
  | nan
  | num (n : Int)
  deriving DecidableEq, Repr

/-- Renders a `JsVal` the way a JS template literal would
(`null`, `NaN`, or the decimal number). -/
def jsShowId : JsVal → String
  | JsVal.null => "null"
  | JsVal.nan => "NaN"
  | JsVal.num n => toString n

/-- Leading decimal digits of a character list, if any (the
digit-consuming part of JS `parseInt`). -/
def parseDigits (cs : List Char) : Option Nat :=
  let ds := cs.takeWhile Char.isDigit
  if ds.isEmpty then none
  else some (ds.foldl (fun n c => 10 * n + (c.toNat - 48)) 0)

/-- JavaScript `parseInt(value, 10)`: skip leading whitespace, optional
sign, then consume leading digits; `NaN` when no digit is consumed. -/
def parseIntJS (s : String) : JsVal :=
  match s.data.dropWhile Char.isWhitespace with
  | '-' :: rest =>
    match parseDigits rest with
    | some n => JsVal.num (-(n : Int))
    | none => JsVal.nan
  | '+' :: rest =>
    match parseDigits rest with
    | some n => JsVal.num (n : Int)
    | none => JsVal.nan
  | rest =>
    match parseDigits rest with
    | some n => JsVal.num (n : Int)
    | none => JsVal.nan

/-- Split a character list at every occurrence of a separator, the way
JS `String.prototype.split` does with a single-character separator. -/
def splitChars (sep : Char) : List Char → List (List Char)
  | [] => [[]]
  | c :: cs =>
    let r := splitChars sep cs
    if c = sep then [] :: r
    else
      match r with
      | [] => [[c]]
      | g :: gs => (c :: g) :: gs

/-- JavaScript `tag.split(sep)` for a one-character separator. -/
def splitJS (sep : Char) (s : String) : List String :=
  (splitChars sep s.data).map (fun cs => { data := cs })

/-- JavaScript `s.startsWith(p)`. -/
def startsWithJS (s p : String) : Bool :=
  s.data.take p.data.length == p.data

/-- The `{ id, type }` record built by `RelaySession.getClientInfo`. -/
structure ClientInfo where
  type : String
  id : JsVal
  deriving DecidableEq, Repr

/-- `RelaySession.getClientInfo`: fold over a socket's tags, splitting each
tag on `:`; a `type` key sets the type, an `id` key sets `parseInt` of the
value.  Tags attached by `fetch` always contain a colon, so the two-part
case is the only one reached on accepted sockets. -/
def getClientInfo (tags : List String) : ClientInfo :=
  tags.foldl
    (fun info tag =>
      match splitJS ':' tag with
      | key :: value :: _ =>
        if key = websocketTags.TYPE then { info with type := value }
        else if key = websocketTags.ID then { info with id := parseIntJS value }
        else info
      | _ => info)
    { type := deviceTags.UNKNOWN, id := JsVal.null }

/-- One accepted connection in the host registry: an opaque handle plus the
tag strings attached at `acceptWebSocket` time. -/
structure Conn where
  handle : Nat
  tags : List String
  deriving DecidableEq, Repr

/-- `ctx.getWebSockets(tag?)`: all accepted connections, or those whose tag
set contains the given tag. -/
def getWebSockets (reg : List Conn) : Option String → List Conn
  | none => reg
  | some tag => reg.filter (fun c => c.tags.contains tag)

/-- `ctx.getTags(ws)` for a connection handle (empty when unknown, matching
the host behaviour the tests mock as `mockSockets.get(socket) || []`). -/
def getTags (reg : List Conn) (ws : Nat) : List String :=
  match reg.find? (fun c => c.handle == ws) with
  | some c => c.tags
  | none => []

/-- The durable store restricted to the keys `RelaySession` uses:
`tabletConnectionToken`, `pcConnectionToken`, `tabletIdCounter`, plus the
single armed alarm time (`setAlarm` / `deleteAlarm`).  `none` means the key
is absent (JS `undefined`). -/
structure Storage where
  tabletConnectionToken : Option String
  pcConnectionToken : Option String
  tabletIdCounter : Option Nat
  alarm : Option Nat
  deriving DecidableEq, Repr

/-- Full actor state: durable storage, the host socket registry, a fresh
handle supply for newly created server socket halves, and the in-memory
(non-durable) instance field `this.newTabletToken`. -/
structure SessionState where
  storage : Storage
  registry : List Conn
  nextHandle : Nat
  memNewTabletToken : Option String
  deriving DecidableEq, Repr

/-- `RelaySession.enforceSingleton(deviceType)` violation condition: some
connection tagged `type:<deviceType>` already exists. -/
def enforceSingletonViolated (reg : List Conn) (deviceType : String) : Bool :=
  decide (0 < (getWebSockets reg (some (websocketTags.TYPE ++ ":" ++ deviceType))).length)

/-- Message of `enforceSingleton`'s `SingletonViolation`. -/
def singletonMessage (deviceType : String) : String :=
  "A " ++ deviceType ++ " is already connected to this session."

/-- JS strict equality `a !== b` negated, for a query parameter
(`string | null`) against a stored token (`string | undefined`): only two
present, equal strings compare equal — `null`, `undefined` and any string
are pairwise distinct. -/
def strictTokenEq : Option String → Option String → Bool
  | some a, some b => a == b
  | _, _ => false

/-- Opaque relayed payload: the actor only inspects `payload.command` and
otherwise forwards the payload verbatim. -/
structure Payload where
  command : Option String
  body : String
  deriving DecidableEq, Repr

/-- The `to` field of a relay message; `none` components are absent
(JS `undefined`) keys. -/
structure Recipient where
  type : Option String
  id : Option Int
  deriving DecidableEq, Repr

/-- A parsed inbound JSON frame, restricted to the fields the actor reads:
`data.type`, `data.payload`, `data.to`. -/
structure MsgData where
  type : Option String
  payload : Option Payload
  -- the source field is named `to`, a reserved word here
  toRcpt : Option Recipient
  deriving DecidableEq, Repr

/-- An inbound socket frame: either text that fails `JSON.parse`, or a
parsed message. -/
inductive Incoming where
  | malformed
  | parsed (data : MsgData)
  deriving DecidableEq, Repr

/-- Outbound JSON frames the actor sends, one constructor per
`JSON.stringify` call site in the source. -/
inductive OutMsg where
  | pong
  | welcome (clientType : String) (id : Option Nat) (msgType : String)
      (message : String) (newTabletToken : Option String)
  | tabletConnected (clientType : String) (id : Nat) (msgType : String)
      (newTabletToken : String) (publicKey : Option String) (timestamp : Nat)
  | participants (msgType : String) (participants : List ClientInfo)
  | relayed (payload : Payload) (fromInfo : ClientInfo)
  deriving DecidableEq, Repr

/-- An observable socket-level effect of a handler: `socket.send(...)` or
`socket.close(code, reason)` on the connection with the given handle. -/
inductive Effect where
  | send (handle : Nat) (msg : OutMsg)
  | close (handle : Nat) (code : Nat) (reason : String)
  deriving DecidableEq, Repr

/-- An upgrade/initialization request as `RelaySession.fetch` consumes it:
method, `Upgrade` header, trailing path segment, `token` query parameter,
public key, the POST body tokens, plus the oracle values `Date.now()` and
the next `getNewToken()` result. -/
structure Request where
  method : String
  upgradeHeader : Option String
  pathEnd : String
  token : Option String
  publicKey : Option String
  postTabletToken : String
  postPcToken : String
  now : Nat
  freshToken : String
  deriving DecidableEq, Repr

/-- Result of `RelaySession.fetch`: the successor state, the HTTP status
and body of the returned response, the socket effects performed during the
handshake (in order), and the handle of the accepted server socket half,
when one was accepted into the registry. -/
structure FetchResult where
  state : SessionState
  status : Nat
  body : Option String
  effects : List Effect
  accepted : Option Nat
  deriving DecidableEq, Repr

/-- Renders a client id into a tag the way the template literal
`id:${clientId}` does (`null` for a missing id). -/
def jsShowOptNat : Option Nat → String
  | none => "null"
  | some n => toString n

/-- Tail of `RelaySession.fetch` shared by all three roles: accept the
server socket half into the registry tagged `type:<clientType>` and
`id:<clientId>`, send the welcome frame (whose `newTabletToken` field reads
the in-memory `this.newTabletToken`), and return the 101 response. -/
def acceptSocket (st : SessionState) (clientType : String) (clientId : Option Nat)
    (notify : List Effect) : FetchResult :=
  let tags := [websocketTags.TYPE ++ ":" ++ clientType,
    websocketTags.ID ++ ":" ++ jsShowOptNat clientId]
  let h := st.nextHandle
  let st' := { st with registry := st.registry ++ [⟨h, tags⟩], nextHandle := h + 1 }
  let welcome := OutMsg.welcome clientType clientId labels.SYSTEM
    labels.CONNECTION_ESTABLISHED st.memNewTabletToken
  { state := st', status := 101, body := none,
    effects := notify ++ [Effect.send h welcome], accepted := some h }

/-- `RelaySession.fetch`.  Mirrors the source's control flow: re-read the
tablet id counter (`getNextTabletId`, with `|| 0`), POST initialization,
the `Upgrade: websocket` check, then dispatch on the trailing path segment:
`connect` runs singleton enforcement before the controller token check;
`join` checks the satellite token, re-arms the keep-alive alarm, assigns
and persists the next tablet id, rotates the satellite token, and notifies
every `type:pc` socket; any other path is accepted untagged as `unknown`.
`SingletonViolation` surfaces as 409 and `TokenError` as 403 via the catch
block, which performs no socket close. -/
def fetch (st : SessionState) (req : Request) : FetchResult :=
  let nextTabletId := st.storage.tabletIdCounter.getD 0
  if req.method = "POST" then
    { state := { st with storage := { st.storage with
        tabletConnectionToken := some req.postTabletToken,
        pcConnectionToken := some req.postPcToken,
        alarm := some (req.now + sessionAlarmTime) } },
      status := 200, body := some labels.INITIALIZATION_SUCCESSFUL,
      effects := [], accepted := none }
  else if req.upgradeHeader ≠ some "websocket" then
    { state := st, status := 426, body := some labels.EXPECTED_WEBSOCKET,
      effects := [], accepted := none }
  else if req.pathEnd = slugs.CONNECT then
    if enforceSingletonViolated st.registry deviceTags.PC then
      { state := st, status := 409, body := some (singletonMessage deviceTags.PC),
        effects := [], accepted := none }
    else if strictTokenEq req.token st.storage.pcConnectionToken then
      acceptSocket st deviceTags.PC (some 0) []
    else
      { state := st, status := 403, body := some labels.INVALID_TOKEN,
        effects := [], accepted := none }
  else if req.pathEnd = slugs.JOIN then
    if strictTokenEq req.token st.storage.tabletConnectionToken then
      let clientId := nextTabletId
      let st1 := { st with
        storage := { st.storage with
          alarm := some (req.now + keepAliveInterval),
          tabletIdCounter := some (nextTabletId + 1),
          tabletConnectionToken := some req.freshToken },
        memNewTabletToken := some req.freshToken }
      let notify := (getWebSockets st.registry (some labels.PC_TYPE)).map
        (fun c => Effect.send c.handle (OutMsg.tabletConnected deviceTags.TABLET
          clientId labels.TABLET_CONNECTED req.freshToken req.publicKey req.now))
      acceptSocket st1 deviceTags.TABLET (some clientId) notify
    else
      { state := st, status := 403, body := some labels.INVALID_TOKEN,
        effects := [], accepted := none }
  else
    acceptSocket st deviceTags.UNKNOWN none []

/-- JS template rendering of a possibly-absent string
(`${recipient.type}` prints `undefined` when the key is missing). -/
def jsShowUndef : Option String → String
  | none => "undefined"
  | some s => s

/-- JS strict equality of a string against a possibly-`undefined` string
(`info.type === recipient.type`). -/
def jsEqOptStr (t : String) : Option String → Bool
  | some s => t == s
  | none => false

/-- `RelaySession.webSocketMessage`: ping/pong, the `close` and
`get_participants` commands, then private relay (when `to.id` is present)
or public relay (broadcast to `to.type` excluding the sender).  Returns the
socket effects; the handler writes neither storage nor registry. -/
def webSocketMessage (reg : List Conn) (ws : Nat) (m : Incoming) : List Effect :=
  let sender := getClientInfo (getTags reg ws)
  match m with
  | Incoming.malformed => []
  | Incoming.parsed data =>
    if data.type = some "ping" then [Effect.send ws OutMsg.pong]
    else
      let cmd := data.payload.bind (fun p => p.command)
      if cmd = some labels.CLOSE_CMD then
        let closeReason := labels.SESSION_CLOSED_BY_CLIENT ++ " " ++ sender.type
          ++ " (id: " ++ jsShowId sender.id ++ ")"
        (getWebSockets reg none).map
          (fun c => Effect.close c.handle wsStatusCodes.NORMAL_CLOSURE closeReason)
      else if cmd = some labels.GET_PARTICIPANTS_CMD then
        [Effect.send ws (OutMsg.participants labels.PARTICIPANTS_LIST
          ((getWebSockets reg none).map (fun c => getClientInfo c.tags)))]
      else
        match data.toRcpt, data.payload with
        | some recipient, some payload =>
          match recipient.id with
          | some rid =>
            let addressee := ((getWebSockets reg
                (some (websocketTags.ID ++ ":" ++ toString rid))).map
                (fun c => (c, getClientInfo c.tags))).find?
                (fun p => jsEqOptStr p.2.type recipient.type)
            match addressee with
            | some p => [Effect.send p.1.handle (OutMsg.relayed payload sender)]
            | none => []
          | none =>
            ((getWebSockets reg
              (some (websocketTags.TYPE ++ ":" ++ jsShowUndef recipient.type))).filter
              (fun c => c.handle ≠ ws)).map
              (fun c => Effect.send c.handle (OutMsg.relayed payload sender))
        | _, _ => []

/-- `RelaySession.webSocketClose`.  `reg` is the registry at handler time,
which no longer lists the departing connection (the host removes it before
delivering the close event); `departedTags` are the departing connection's
tags, still readable via `ctx.getTags`.  A reason starting with the
close-command sentinel suppresses the cascade; otherwise a departing `pc`
closes every tablet, and a departing tablet that was the last tablet closes
every `pc`. -/
def webSocketClose (reg : List Conn) (departedTags : List String)
    (reason : String) : List Effect :=
  let clientInfo := getClientInfo departedTags
  if startsWithJS reason labels.SESSION_CLOSED_BY_CLIENT then []
  else if clientInfo.type = deviceTags.PC then
    (getWebSockets reg (some labels.TABLET_TYPE)).map
      (fun c => Effect.close c.handle wsStatusCodes.NORMAL_CLOSURE
        (clientInfo.type ++ " (id: " ++ jsShowId clientInfo.id ++ ") disconnected"))
  else if clientInfo.type = deviceTags.TABLET then
    if (getWebSockets reg (some labels.TABLET_TYPE)).length = 0 then
      (getWebSockets reg (some labels.PC_TYPE)).map
        (fun c => Effect.close c.handle wsStatusCodes.NORMAL_CLOSURE
          (labels.LAST_TABLET_DISCONNECTED ++ " (was id: "
            ++ jsShowId clientInfo.id ++ ")"))
    else []
  else []

/-- Body of `RelaySession.alarm` inside its `try`: with at least one
accepted socket, re-arm the keep-alive alarm; with none, delete the
satellite token.  `storeFault` injects the spec's "store unavailable"
failure, aborting the body before any write. -/
def alarmBody (st : SessionState) (now : Nat) (storeFault : Bool) :
    Except String SessionState :=
  if storeFault then Except.error "store unavailable"
  else if 0 < (getWebSockets st.registry none).length then
    Except.ok { st with storage := { st.storage with
      alarm := some (now + keepAliveInterval) } }
  else
    Except.ok { st with storage := { st.storage with
      tabletConnectionToken := none } }

/-- `RelaySession.alarm`: the body runs under a `try`/`catch` that logs and
swallows any exception, so the handler always returns normally — on failure
with the state unchanged. -/
def alarm (st : SessionState) (now : Nat) (storeFault : Bool) : SessionState :=
  match alarmBody st now storeFault with
  | Except.ok st' => st'
  | Except.error _ => st

/-- One host-delivered event for the session actor.  `closeEv` carries the
code and reason of the close; `alarmEv` carries the clock and the injected
store fault; `restartEv` models the host recycling the actor instance
(in-memory fields lost, durable storage and hibernated sockets kept). -/
inductive Event where
  | fetchEv (req : Request)
  | msgEv (ws : Nat) (m : Incoming)
  | closeEv (ws : Nat) (code : Nat) (reason : String)
  | alarmEv (now : Nat) (storeFault : Bool)
  | restartEv
  deriving DecidableEq, Repr

/-- State-and-effects small step: dispatch one event to the corresponding
handler.  A close event first removes the departing connection from the
registry (host behaviour) and an alarm event first consumes the armed
alarm. -/
def stepE (st : SessionState) : Event → SessionState × List Effect
  | Event.fetchEv req =>
    let r := fetch st req
    (r.state, r.effects)
  | Event.msgEv ws m => (st, webSocketMessage st.registry ws m)
  | Event.closeEv ws _ reason =>
    let tags := getTags st.registry ws
    let reg' := st.registry.filter (fun c => c.handle ≠ ws)
    ({ st with registry := reg' }, webSocketClose reg' tags reason)
  | Event.alarmEv now storeFault =>
    (alarm { st with storage := { st.storage with alarm := none } } now storeFault, [])
  | Event.restartEv => ({ st with memNewTabletToken := none }, [])

/-- State-only step. -/
def step (st : SessionState) (e : Event) : SessionState :=
  (stepE st e).1

/-- Run a sequence of events. -/
def run (st : SessionState) (evs : List Event) : SessionState :=
  evs.foldl step st

/-- Durable store of a session no request has touched yet. -/
def emptyStorage : Storage :=
  { tabletConnectionToken := none, pcConnectionToken := none,
    tabletIdCounter := none, alarm := none }

/-- The state of a brand-new session actor: empty durable store, no
accepted sockets, no in-memory rotated token. -/
def initialState : SessionState :=
  { storage := emptyStorage, registry := [], nextHandle := 0,
    memNewTabletToken := none }

/-- The satellite id a single effect makes visible on the wire: the `id`
of a welcome frame whose client type is `tablet` (each successful join
sends exactly one such frame). -/
def welcomeIdOf : Effect → Option Nat
  | Effect.send _ (OutMsg.welcome ct (some i) _ _ _) =>
    if ct = deviceTags.TABLET then some i else none
  | _ => none

/-- Satellite ids a handler's effects make visible, in order. -/
def tabletWelcomeIds (effs : List Effect) : List Nat :=
  effs.filterMap welcomeIdOf

/-- Run a sequence of events, collecting the trace of satellite ids
assigned by successful joins. -/
def runTrace : SessionState → List Event → SessionState × List Nat
  | st, [] => (st, [])
  | st, e :: evs =>
    let p := stepE st e
    let rest := runTrace p.1 evs
    (rest.1, tabletWelcomeIds p.2 ++ rest.2)

/-- Number of live connections carrying the controller (`type:pc`) tag. -/
def pcCount (reg : List Conn) : Nat :=
  (getWebSockets reg (some labels.PC_TYPE)).length

/-- Events that neither re-initialize the session (POST) nor feed the
rotated-token generator the value `T`: the freshness discipline under which
a consumed satellite token stays invalid. -/
def eventAvoids (T : String) : Event → Prop
  | Event.fetchEv req => req.method ≠ "POST" ∧ req.freshToken ≠ T
  | _ => True

/-! ### Sample fixtures used by witnesses -/

/-- A registry with the controller and two satellites, as a typical
steady-state session. -/
def regSample : List Conn :=
  [⟨0, ["type:pc", "id:0"]⟩, ⟨1, ["type:tablet", "id:1"]⟩,
    ⟨2, ["type:tablet", "id:2"]⟩]

/-- Sample opaque payload. -/
def plSample : Payload := { command := none, body := "hello" }

/-- Durable store of an initialized session (controller token `P`,
satellite token `T`). -/
def storSample : Storage :=
  { tabletConnectionToken := some "T", pcConnectionToken := some "P",
    tabletIdCounter := none, alarm := some 300000 }

/-- Initialized session with one controller connected. -/
def stSample : SessionState :=
  { storage := storSample, registry := [⟨0, ["type:pc", "id:0"]⟩],
    nextHandle := 1, memNewTabletToken := none }

/-- Upgrade request builder for the given trailing path segment and
token. -/
def reqUpgrade (pathEnd : String) (token : Option String) (fresh : String) : Request :=
  { method := "GET", upgradeHeader := some "websocket", pathEnd := pathEnd,
    token := token, publicKey := none, postTabletToken := "x",
    postPcToken := "y", now := 1000, freshToken := fresh }

/-! ### Theorems -/

/-- C7: a frame whose `payload.command` is `close` closes every live
connection (any role, the sender included) with the normal-closure code
and the sentinel reason naming the sender, and produces no other effect
(no routing happens for that frame). -/
theorem close_command_closes_all (reg : List Conn) (ws : Nat) (data : MsgData)
    (payload : Payload)
    (hping : data.type ≠ some "ping")
    (hpl : data.payload = some payload)
    (hcmd : payload.command = some labels.CLOSE_CMD) :
    webSocketMessage reg ws (Incoming.parsed data) =
      reg.map (fun c => Effect.close c.handle wsStatusCodes.NORMAL_CLOSURE
        (labels.SESSION_CLOSED_BY_CLIENT ++ " "
          ++ (getClientInfo (getTags reg ws)).type
          ++ " (id: " ++ jsShowId (getClientInfo (getTags reg ws)).id ++ ")")) := by
  simp only [webSocketMessage, hpl, Option.bind, hcmd]
  rw [if_neg hping]
  simp only [if_true]
  rfl

/-- Payload carrying the `close` command. -/
def plClose : Payload := { command := some labels.CLOSE_CMD, body := "" }

/-- Frame carrying the `close` command. -/
def dataClose : MsgData := { type := none, payload := some plClose, toRcpt := none }

/-- C7 witness: a satellite issues the close command in the three-member
sample session; every connection is closed with the sentinel reason. -/
theorem close_command_closes_all_witness :
    webSocketMessage regSample 1 (Incoming.parsed dataClose) =
      [Effect.close 0 1000 "Session closed by tablet (id: 1)",
        Effect.close 1 1000 "Session closed by tablet (id: 1)",
        Effect.close 2 1000 "Session closed by tablet (id: 1)"] := by
  rw [close_command_closes_all regSample 1 dataClose plClose
    (by decide) rfl rfl]
  decide

/-- C8: on a close event whose reason does not start with the sentinel, a
departing controller closes every satellite; a departing satellite closes
every controller exactly when no satellite remains; a departing unknown
connection, or a sentinel reason, cascades to nobody.  `reg` is the
registry after the host removed the departing connection. -/
theorem disconnect_cascade (reg : List Conn) (tags : List String) (reason : String) :
    (startsWithJS reason labels.SESSION_CLOSED_BY_CLIENT = true →
      webSocketClose reg tags reason = []) ∧
    (startsWithJS reason labels.SESSION_CLOSED_BY_CLIENT = false →
      ((getClientInfo tags).type = deviceTags.PC →
        webSocketClose reg tags reason =
          (getWebSockets reg (some labels.TABLET_TYPE)).map
            (fun c => Effect.close c.handle wsStatusCodes.NORMAL_CLOSURE
              ((getClientInfo tags).type ++ " (id: "
                ++ jsShowId (getClientInfo tags).id ++ ") disconnected"))) ∧
      ((getClientInfo tags).type = deviceTags.TABLET →
        (getWebSockets reg (some labels.TABLET_TYPE) = [] →
          webSocketClose reg tags reason =
            (getWebSockets reg (some labels.PC_TYPE)).map
              (fun c => Effect.close c.handle wsStatusCodes.NORMAL_CLOSURE
                (labels.LAST_TABLET_DISCONNECTED ++ " (was id: "
                  ++ jsShowId (getClientInfo tags).id ++ ")"))) ∧
        (getWebSockets reg (some labels.TABLET_TYPE) ≠ [] →
          webSocketClose reg tags reason = [])) ∧
      ((getClientInfo tags).type ≠ deviceTags.PC →
        (getClientInfo tags).type ≠ deviceTags.TABLET →
        webSocketClose reg tags reason = [])) := by
  refine ⟨fun hs => ?_, fun hs => ⟨fun hpc => ?_, fun htab => ⟨fun hz => ?_, fun hnz => ?_⟩, fun hnpc hntab => ?_⟩⟩
  · simp only [webSocketClose]
    rw [if_pos hs]
  · simp only [webSocketClose]
    rw [if_neg (by simp [hs]), if_pos hpc]
  · have hnpc : (getClientInfo tags).type ≠ deviceTags.PC := by
      rw [htab]; decide
    simp only [webSocketClose]
    rw [if_neg (by simp [hs]), if_neg hnpc, if_pos htab,
      if_pos (by rw [hz]; rfl)]
  · have hnpc : (getClientInfo tags).type ≠ deviceTags.PC := by
      rw [htab]; decide
    simp only [webSocketClose]
    rw [if_neg (by simp [hs]), if_neg hnpc, if_pos htab,
      if_neg (by simpa using hnz)]
  · simp only [webSocketClose]
    rw [if_neg (by simp [hs]), if_neg hnpc, if_neg hntab]

/-- C8 witness: with one satellite left in the registry after the
controller departs on a non-sentinel reason, that satellite is closed
with the controller-disconnected reason. -/
theorem disconnect_cascade_witness :
    webSocketClose [⟨1, ["type:tablet", "id:1"]⟩] ["type:pc", "id:0"]
        "network error" =
      [Effect.close 1 1000 "pc (id: 0) disconnected"] := by
  rw [((disconnect_cascade [⟨1, ["type:tablet", "id:1"]⟩] ["type:pc", "id:0"]
    "network error").2 (by decide)).1 (by decide)]
  decide

/-- C9: when the alarm fires with no live connection the satellite token
is deleted and no new alarm is armed; with at least one connection a
keep-alive alarm is re-armed and every stored key is left unchanged; and
an injected failure is caught, the handler returning normally with the
state untouched. -/
theorem alarm_idle_cleanup (st : SessionState) (now : Nat) :
    (st.registry = [] → st.storage.alarm = none →
      (alarm st now false).storage.tabletConnectionToken = none ∧
      (alarm st now false).storage.alarm = none ∧
      (alarm st now false).storage.pcConnectionToken = st.storage.pcConnectionToken ∧
      (alarm st now false).storage.tabletIdCounter = st.storage.tabletIdCounter ∧
      (alarm st now false).registry = st.registry) ∧
    (st.registry ≠ [] →
      (alarm st now false).storage.alarm = some (now + keepAliveInterval) ∧
      (alarm st now false).storage.tabletConnectionToken = st.storage.tabletConnectionToken ∧
      (alarm st now false).storage.pcConnectionToken = st.storage.pcConnectionToken ∧
      (alarm st now false).storage.tabletIdCounter = st.storage.tabletIdCounter ∧
      (alarm st now false).registry = st.registry) ∧
    (alarm st now true = st) := by
  refine ⟨fun hz ha => ?_, fun hnz => ?_, ?_⟩
  · have hlen : ¬ 0 < (getWebSockets st.registry none).length := by
      simp [getWebSockets, hz]
    simp only [alarm, alarmBody, if_neg (by decide : ¬ (false = true)),
      if_neg hlen]
    simp [ha]
  · have hlen : 0 < (getWebSockets st.registry none).length := by
      simpa [getWebSockets, List.length_pos] using hnz
    simp only [alarm, alarmBody, if_neg (by decide : ¬ (false = true)),
      if_pos hlen]
    simp
  · simp only [alarm, alarmBody, if_true]

/-- Durable store of a session whose alarm has just been consumed, with a
satellite token still present. -/
def storIdle : Storage :=
  { tabletConnectionToken := some "T", pcConnectionToken := some "P",
    tabletIdCounter := some 3, alarm := none }

/-- Idle session (no connection) for the alarm witness. -/
def stIdle : SessionState :=
  { storage := storIdle, registry := [], nextHandle := 0,
    memNewTabletToken := none }

/-- Busy session (three connections) for the alarm witness. -/
def stBusy : SessionState :=
  { storage := storIdle, registry := regSample, nextHandle := 3,
    memNewTabletToken := none }

/-- C9 witness: firing the alarm on an idle session deletes the satellite
token without arming a new alarm, and firing it on the three-member
registry re-arms the keep-alive alarm. -/
theorem alarm_idle_cleanup_witness :
    ((alarm stIdle 7 false).storage.tabletConnectionToken = none ∧
      (alarm stIdle 7 false).storage.alarm = none) ∧
    (alarm stBusy 7 false).storage.alarm = some (7 + keepAliveInterval) := by
  refine ⟨⟨?_, ?_⟩, ?_⟩
  · exact ((alarm_idle_cleanup stIdle 7).1 rfl rfl).1
  · exact ((alarm_idle_cleanup stIdle 7).1 rfl rfl).2.1
  · exact ((alarm_idle_cleanup stBusy 7).2.1 (by decide)).1

/-- C4 evaluation: on both authentication failures after the socket pair
exists — a join with a wrong satellite token against an initialized store,
and a connect while a controller is already registered — `fetch` returns
the HTTP failure (403 resp. 409) but performs no socket effect at all: in
particular it never closes the server-side socket half, contradicting the
repository's own tests and the comment in the catch block. -/
theorem auth_failure_leaves_socket_unclosed :
    ((fetch stSample (reqUpgrade slugs.JOIN (some "wrong") "F")).status = 403 ∧
      (fetch stSample (reqUpgrade slugs.JOIN (some "wrong") "F")).effects = []) ∧
    ((fetch stSample (reqUpgrade slugs.CONNECT (some "P") "F")).status = 409 ∧
      (fetch stSample (reqUpgrade slugs.CONNECT (some "P") "F")).effects = []) := by
  decide

/-- Connections whose tags match both the requested id (via the `id:` tag
the private-relay lookup filters on) and the requested role (via the type
read back from the tags by `getClientInfo`). -/
def privateMatches (reg : List Conn) (rt : Option String) (rid : Int) : List Conn :=
  (getWebSockets reg (some (websocketTags.ID ++ ":" ++ toString rid))).filter
    (fun c => jsEqOptStr (getClientInfo c.tags).type rt)

/-- The `find?` over id-tagged sockets paired with their client info is the
head of the filter of both-matching sockets. -/
theorem find?_pairs (l : List Conn) (rt : Option String) :
    (l.map (fun c => (c, getClientInfo c.tags))).find?
        (fun p => jsEqOptStr p.2.type rt) =
      ((l.filter (fun c => jsEqOptStr (getClientInfo c.tags).type rt)).head?).map
        (fun c => (c, getClientInfo c.tags)) := by
  rw [List.find?_map, ← List.filter_head?]
  rfl

/-- Common reduction for a relay message (`to` and `payload` present, not
a ping, not a command): the private branch as a function of the
both-matching connections. -/
theorem webSocketMessage_private_eq (reg : List Conn) (ws : Nat) (data : MsgData)
    (payload : Payload) (rt : String) (rid : Int)
    (hping : data.type ≠ some "ping")
    (hpl : data.payload = some payload)
    (hc1 : payload.command ≠ some labels.CLOSE_CMD)
    (hc2 : payload.command ≠ some labels.GET_PARTICIPANTS_CMD)
    (hto : data.toRcpt = some { type := some rt, id := some rid }) :
    webSocketMessage reg ws (Incoming.parsed data) =
      match (privateMatches reg (some rt) rid).head? with
      | some c => [Effect.send c.handle
          (OutMsg.relayed payload (getClientInfo (getTags reg ws)))]
      | none => [] := by
  simp only [webSocketMessage, hpl, hto, Option.bind]
  rw [if_neg hping, if_neg hc1, if_neg hc2]
  rw [find?_pairs]
  have hpm : (getWebSockets reg (some (websocketTags.ID ++ ":" ++ toString rid))).filter
      (fun c => jsEqOptStr (getClientInfo c.tags).type (some rt)) =
      privateMatches reg (some rt) rid := rfl
  rw [hpm]
  rcases h : (privateMatches reg (some rt) rid).head? with _ | c
  · rfl
  · rfl

/-- C5: a relay frame addressed to both a role and an id from any sender
is delivered to exactly the one live connection whose tags match both, and
to no other; when no connection matches both (a mismatched role on a
matching id included), nothing is sent to anybody and the sender gets no
error frame back. -/
theorem private_relay_unique_delivery (reg : List Conn) (ws : Nat)
    (data : MsgData) (payload : Payload) (rt : String) (rid : Int)
    (hping : data.type ≠ some "ping")
    (hpl : data.payload = some payload)
    (hc1 : payload.command ≠ some labels.CLOSE_CMD)
    (hc2 : payload.command ≠ some labels.GET_PARTICIPANTS_CMD)
    (hto : data.toRcpt = some { type := some rt, id := some rid })
    (huniq : (privateMatches reg (some rt) rid).length ≤ 1) :
    (∀ c ∈ privateMatches reg (some rt) rid,
      webSocketMessage reg ws (Incoming.parsed data) =
        [Effect.send c.handle (OutMsg.relayed payload (getClientInfo (getTags reg ws)))]) ∧
    (privateMatches reg (some rt) rid = [] →
      webSocketMessage reg ws (Incoming.parsed data) = []) := by
  rw [webSocketMessage_private_eq reg ws data payload rt rid hping hpl hc1 hc2 hto]
  constructor
  · intro c hc
    rcases hmatch : privateMatches reg (some rt) rid with _ | ⟨a, rest⟩
    · rw [hmatch] at hc
      simp at hc
    · have hrest : rest = [] := by
        have hlen := huniq
        rw [hmatch] at hlen
        simp only [List.length_cons] at hlen
        exact List.eq_nil_of_length_eq_zero (by omega)
      subst hrest
      rw [hmatch] at hc
      simp at hc
      subst hc
      rfl
  · intro hempty
    rw [hempty]
    rfl

/-- Relay frame addressed privately to satellite 2. -/
def dataPriv : MsgData :=
  { type := none, payload := some plSample,
    toRcpt := some ⟨some "tablet", some 2⟩ }

/-- C5 witness: in the three-member sample session the controller's frame
to `{role: tablet, id: 2}` reaches exactly satellite 2. -/
theorem private_relay_unique_delivery_witness :
    webSocketMessage regSample 0 (Incoming.parsed dataPriv) =
      [Effect.send 2 (OutMsg.relayed plSample (getClientInfo (getTags regSample 0)))] := by
  exact (private_relay_unique_delivery regSample 0 dataPriv plSample "tablet" 2
    (by decide) rfl (by decide) (by decide) rfl (by decide)).1
    ⟨2, ["type:tablet", "id:2"]⟩ (by decide)

/-- C6: a relay frame addressed to a role without an id is delivered to
every live connection tagged with that role other than the sender, and
never to the sender, also when the sender carries that very role. -/
theorem public_relay_excludes_sender (reg : List Conn) (ws : Nat)
    (data : MsgData) (payload : Payload) (rt : String)
    (hping : data.type ≠ some "ping")
    (hpl : data.payload = some payload)
    (hc1 : payload.command ≠ some labels.CLOSE_CMD)
    (hc2 : payload.command ≠ some labels.GET_PARTICIPANTS_CMD)
    (hto : data.toRcpt = some { type := some rt, id := none }) :
    webSocketMessage reg ws (Incoming.parsed data) =
      ((getWebSockets reg (some (websocketTags.TYPE ++ ":" ++ rt))).filter
        (fun c => c.handle ≠ ws)).map
        (fun c => Effect.send c.handle
          (OutMsg.relayed payload (getClientInfo (getTags reg ws)))) ∧
    (∀ c ∈ getWebSockets reg (some (websocketTags.TYPE ++ ":" ++ rt)),
      c.handle ≠ ws →
      Effect.send c.handle (OutMsg.relayed payload (getClientInfo (getTags reg ws)))
        ∈ webSocketMessage reg ws (Incoming.parsed data)) ∧
    (∀ m : OutMsg, Effect.send ws m ∉ webSocketMessage reg ws (Incoming.parsed data)) := by
  have hred : webSocketMessage reg ws (Incoming.parsed data) =
      ((getWebSockets reg (some (websocketTags.TYPE ++ ":" ++ rt))).filter
        (fun c => c.handle ≠ ws)).map
        (fun c => Effect.send c.handle
          (OutMsg.relayed payload (getClientInfo (getTags reg ws)))) := by
    simp only [webSocketMessage, hpl, hto, Option.bind]
    rw [if_neg hping, if_neg hc1, if_neg hc2]
    rfl
  refine ⟨hred, fun c hc hne => ?_, fun m hm => ?_⟩
  · rw [hred]
    exact List.mem_map_of_mem _ (List.mem_filter.mpr ⟨hc, by simpa using hne⟩)
  · rw [hred] at hm
    rcases List.mem_map.mp hm with ⟨c, hcf, heq⟩
    have hne : c.handle ≠ ws := by simpa using (List.mem_filter.mp hcf).2
    cases heq
    exact hne rfl

/-- Relay frame addressed publicly to every satellite. -/
def dataPub : MsgData :=
  { type := none, payload := some plSample,
    toRcpt := some ⟨some "tablet", none⟩ }

/-- C6 witness: a public frame from satellite 1 to role `tablet` reaches
satellite 2 only — not the sending satellite, not the controller. -/
theorem public_relay_excludes_sender_witness :
    webSocketMessage regSample 1 (Incoming.parsed dataPub) =
      [Effect.send 2 (OutMsg.relayed plSample (getClientInfo (getTags regSample 1)))] := by
  rw [(public_relay_excludes_sender regSample 1 dataPub plSample "tablet"
    (by decide) rfl (by decide) (by decide) rfl).1]
  decide

/-- C10: on every successful handshake the welcome frame carries a
`newTabletToken` field: after a successful satellite join it holds the
freshly rotated satellite token (the very value the store now requires for
the next join), while a controller or unknown connection on a fresh actor
instance (no in-memory rotated token yet) receives it absent. -/
theorem welcome_carries_new_tablet_token (st : SessionState) (req : Request)
    (hm : req.method ≠ "POST") (hu : req.upgradeHeader = some "websocket") :
    (req.pathEnd = slugs.JOIN →
      strictTokenEq req.token st.storage.tabletConnectionToken = true →
      (fetch st req).accepted = some st.nextHandle ∧
      (fetch st req).effects.getLast? = some (Effect.send st.nextHandle
        (OutMsg.welcome deviceTags.TABLET (some (st.storage.tabletIdCounter.getD 0))
          labels.SYSTEM labels.CONNECTION_ESTABLISHED (some req.freshToken))) ∧
      (fetch st req).state.storage.tabletConnectionToken = some req.freshToken) ∧
    (req.pathEnd = slugs.CONNECT →
      enforceSingletonViolated st.registry deviceTags.PC = false →
      strictTokenEq req.token st.storage.pcConnectionToken = true →
      st.memNewTabletToken = none →
      (fetch st req).effects.getLast? = some (Effect.send st.nextHandle
        (OutMsg.welcome deviceTags.PC (some 0) labels.SYSTEM
          labels.CONNECTION_ESTABLISHED none))) ∧
    (req.pathEnd ≠ slugs.CONNECT → req.pathEnd ≠ slugs.JOIN →
      st.memNewTabletToken = none →
      (fetch st req).effects.getLast? = some (Effect.send st.nextHandle
        (OutMsg.welcome deviceTags.UNKNOWN none labels.SYSTEM
          labels.CONNECTION_ESTABLISHED none))) := by
  refine ⟨fun hj htok => ?_, fun hc hsing htok hmem => ?_, fun hnc hnj hmem => ?_⟩
  · have hne : req.pathEnd ≠ slugs.CONNECT := by
      rw [hj]; decide
    simp only [fetch, acceptSocket]
    rw [if_neg hm, if_neg (by simp [hu]), if_neg hne, if_pos hj, if_pos htok]
    refine ⟨rfl, ?_, rfl⟩
    rw [List.getLast?_concat]
  · simp only [fetch, acceptSocket]
    rw [if_neg hm, if_neg (by simp [hu]), if_pos hc,
      if_neg (by simp [hsing]), if_pos htok, hmem]
    rw [List.getLast?_concat]
  · simp only [fetch, acceptSocket]
    rw [if_neg hm, if_neg (by simp [hu]), if_neg hnc, if_neg hnj, hmem]
    rw [List.getLast?_concat]

/-- C10 witness: a successful join on the initialized sample session sends
the joining satellite a welcome frame whose `newTabletToken` is the
rotated token, while the controller handshake that built `stSample`
carried `newTabletToken` absent. -/
theorem welcome_carries_new_tablet_token_witness :
    (fetch stSample (reqUpgrade slugs.JOIN (some "T") "F")).effects.getLast? =
      some (Effect.send 1 (OutMsg.welcome deviceTags.TABLET (some 0)
        labels.SYSTEM labels.CONNECTION_ESTABLISHED (some "F"))) := by
  exact ((welcome_carries_new_tablet_token stSample
    (reqUpgrade slugs.JOIN (some "T") "F") (by decide) rfl).1 rfl (by decide)).2.1

/-! ### Controller-singleton invariant (C1) -/

/-- A tag built from the `id` key is never the controller type tag. -/
theorem id_tag_ne_pc (s : String) : websocketTags.ID ++ ":" ++ s ≠ labels.PC_TYPE := by
  intro h
  have h2 := congrArg String.data h
  have h3 : (websocketTags.ID ++ ":" ++ s).data = 'i' :: 'd' :: ':' :: s.data := rfl
  have h4 : labels.PC_TYPE.data = ['t', 'y', 'p', 'e', ':', 'p', 'c'] := rfl
  rw [h3, h4] at h2
  injection h2 with h5 _
  exact absurd h5 (by decide)

/-- Accepting one connection adds its controller-tag contribution to the
controller count. -/
theorem pcCount_append (reg : List Conn) (c : Conn) :
    pcCount (reg ++ [c]) =
      pcCount reg + (if c.tags.contains labels.PC_TYPE then 1 else 0) := by
  simp only [pcCount, getWebSockets, List.filter_append, List.length_append,
    List.filter_singleton]
  rcases h : c.tags.contains labels.PC_TYPE with _ | _
  · simp [h]
  · simp [h]

/-- A two-tag list whose second tag is an `id:` tag and whose first tag is
not the controller type tag does not contain the controller type tag. -/
theorem tags_contains_pc_false (t1 s : String) (h1 : labels.PC_TYPE ≠ t1) :
    ([t1, websocketTags.ID ++ ":" ++ s].contains labels.PC_TYPE) = false := by
  have h2 : labels.PC_TYPE ≠ websocketTags.ID ++ ":" ++ s :=
    fun h => id_tag_ne_pc s h.symm
  simp [List.contains_cons, h1, h2]

/-- The tag the singleton check queries is the controller type tag. -/
theorem typeTag_pc : websocketTags.TYPE ++ ":" ++ deviceTags.PC = labels.PC_TYPE := rfl

/-- The alarm handler never touches the registry. -/
theorem alarm_registry (st : SessionState) (now : Nat) (fault : Bool) :
    (alarm st now fault).registry = st.registry := by
  rcases fault with _ | _
  · simp only [alarm, alarmBody, if_neg (show ¬(false = true) by decide)]
    by_cases hl : 0 < (getWebSockets st.registry none).length
    · rw [if_pos hl]
    · rw [if_neg hl]
  · simp only [alarm, alarmBody]
    rfl

/-- The controller count never grows past one in a single step. -/
theorem pcCount_step_le (st : SessionState) (e : Event)
    (h : pcCount st.registry ≤ 1) : pcCount (step st e).registry ≤ 1 := by
  cases e with
  | fetchEv req =>
    simp only [step, stepE]
    by_cases hm : req.method = "POST"
    · simp only [fetch]
      rw [if_pos hm]
      exact h
    · by_cases hu : req.upgradeHeader = some "websocket"
      · by_cases hc : req.pathEnd = slugs.CONNECT
        · by_cases hviol : enforceSingletonViolated st.registry deviceTags.PC
          · simp only [fetch]
            rw [if_neg hm, if_neg (by simp [hu]), if_pos hc, if_pos hviol]
            exact h
          · by_cases htok : strictTokenEq req.token st.storage.pcConnectionToken
            · simp only [fetch, acceptSocket]
              rw [if_neg hm, if_neg (by simp [hu]), if_pos hc,
                if_neg hviol, if_pos htok]
              have hzero : pcCount st.registry = 0 := by
                have hv := hviol
                simp only [enforceSingletonViolated, typeTag_pc,
                  decide_eq_true_eq] at hv
                simp only [pcCount]
                omega
              rw [pcCount_append, hzero]
              split <;> omega
            · simp only [fetch]
              rw [if_neg hm, if_neg (by simp [hu]), if_pos hc,
                if_neg hviol, if_neg htok]
              exact h
        · by_cases hj : req.pathEnd = slugs.JOIN
          · by_cases htok : strictTokenEq req.token st.storage.tabletConnectionToken
            · simp only [fetch, acceptSocket]
              rw [if_neg hm, if_neg (by simp [hu]), if_neg hc, if_pos hj,
                if_pos htok]
              rw [pcCount_append, tags_contains_pc_false _ _ (by decide)]
              simpa using h
            · simp only [fetch]
              rw [if_neg hm, if_neg (by simp [hu]), if_neg hc, if_pos hj,
                if_neg htok]
              exact h
          · simp only [fetch, acceptSocket]
            rw [if_neg hm, if_neg (by simp [hu]), if_neg hc, if_neg hj]
            rw [pcCount_append, tags_contains_pc_false _ _ (by decide)]
            simpa using h
      · simp only [fetch]
        rw [if_neg hm, if_pos (by simp [hu])]
        exact h
  | msgEv ws m => exact h
  | closeEv ws code reason =>
    simp only [step, stepE]
    have hsub : List.Sublist
        ((st.registry.filter (fun c => c.handle ≠ ws)).filter
          (fun c => c.tags.contains labels.PC_TYPE))
        (st.registry.filter (fun c => c.tags.contains labels.PC_TYPE)) :=
      List.Sublist.filter _ (List.filter_sublist _)
    exact le_trans (by simpa [pcCount, getWebSockets] using hsub.length_le) h
  | alarmEv now fault =>
    simp only [step, stepE]
    rw [alarm_registry]
    exact h
  | restartEv => exact h

/-- The controller count stays at most one along any run. -/
theorem pcCount_run_le (evs : List Event) :
    ∀ st : SessionState, pcCount st.registry ≤ 1 →
    pcCount (run st evs).registry ≤ 1 := by
  induction evs with
  | nil => intro st h; exact h
  | cons e evs ih => intro st h; exact ih (step st e) (pcCount_step_le st e h)

/-- C1: a connect handshake arriving while any live connection already
carries the controller tag answers 409 and accepts nothing into the
registry, and consequently every state reachable from a fresh session has
at most one live controller connection. -/
theorem controller_singleton :
    (∀ (st : SessionState) (req : Request),
      0 < pcCount st.registry → req.method ≠ "POST" →
      req.upgradeHeader = some "websocket" → req.pathEnd = slugs.CONNECT →
      (fetch st req).status = 409 ∧ (fetch st req).state.registry = st.registry ∧
      (fetch st req).accepted = none) ∧
    (∀ evs : List Event, pcCount (run initialState evs).registry ≤ 1) := by
  constructor
  · intro st req hpc hm hu hp
    have hviol : enforceSingletonViolated st.registry deviceTags.PC = true :=
      decide_eq_true hpc
    simp only [fetch]
    rw [if_neg hm, if_neg (by simp [hu]), if_pos hp, if_pos hviol]
    exact ⟨rfl, rfl, rfl⟩
  · intro evs
    exact pcCount_run_le evs initialState (by decide)

/-- C1 witness: a second connect against the sample session (controller
already registered) gets 409 and the registry is untouched. -/
theorem controller_singleton_witness :
    (fetch stSample (reqUpgrade slugs.CONNECT (some "anything") "F")).status = 409 ∧
    (fetch stSample (reqUpgrade slugs.CONNECT (some "anything") "F")).state.registry =
      stSample.registry ∧
    (fetch stSample (reqUpgrade slugs.CONNECT (some "anything") "F")).accepted = none :=
  controller_singleton.1 stSample (reqUpgrade slugs.CONNECT (some "anything") "F")
    (by decide) (by decide) rfl rfl

/-! ### Satellite id assignment (C3) -/

/-- The persisted satellite id counter as each handler re-reads it
(`getNextTabletId`, with the `|| 0` default). -/
def counterOf (st : SessionState) : Nat :=
  st.storage.tabletIdCounter.getD 0

/-- Message routing emits no welcome frame, hence no satellite id. -/
theorem tabletWelcomeIds_webSocketMessage (reg : List Conn) (ws : Nat)
    (m : Incoming) : tabletWelcomeIds (webSocketMessage reg ws m) = [] := by
  rw [tabletWelcomeIds, List.filterMap_eq_nil_iff]
  intro e he
  rcases m with _ | data
  · simp [webSocketMessage] at he
  · simp only [webSocketMessage] at he
    split at he
    · simp at he
      subst he
      rfl
    · split at he
      · rcases List.mem_map.mp he with ⟨c, _, rfl⟩
        rfl
      · split at he
        · simp at he
          subst he
          rfl
        · split at he
          · split at he
            · split at he
              · simp at he
                subst he
                rfl
              · simp at he
            · rcases List.mem_map.mp he with ⟨c, _, rfl⟩
              rfl
          · simp at he

/-- The disconnect cascade emits no welcome frame either. -/
theorem tabletWelcomeIds_webSocketClose (reg : List Conn) (tags : List String)
    (reason : String) : tabletWelcomeIds (webSocketClose reg tags reason) = [] := by
  rw [tabletWelcomeIds, List.filterMap_eq_nil_iff]
  intro e he
  simp only [webSocketClose] at he
  split at he
  · simp at he
  · split at he
    · rcases List.mem_map.mp he with ⟨c, _, rfl⟩
      rfl
    · split at he
      · split at he
        · rcases List.mem_map.mp he with ⟨c, _, rfl⟩
          rfl
        · simp at he
      · simp at he

/-- The alarm handler never touches the persisted id counter. -/
theorem counterOf_alarm (st : SessionState) (now : Nat) (fault : Bool) :
    counterOf (alarm st now fault) = counterOf st := by
  rcases fault with _ | _
  · simp only [alarm, alarmBody, if_neg (show ¬(false = true) by decide)]
    by_cases hl : 0 < (getWebSockets st.registry none).length
    · rw [if_pos hl]
      rfl
    · rw [if_neg hl]
      rfl
  · simp only [alarm, alarmBody]
    rfl

/-- One step emits the satellite ids counted from the persisted counter
and advances the counter by exactly as many. -/
theorem stepE_trace (st : SessionState) (e : Event) :
    ∃ k, tabletWelcomeIds (stepE st e).2 = List.range' (counterOf st) k ∧
      counterOf (stepE st e).1 = counterOf st + k := by
  cases e with
  | fetchEv req =>
    simp only [stepE]
    by_cases hm : req.method = "POST"
    · refine ⟨0, ?_, ?_⟩ <;> simp only [fetch] <;> rw [if_pos hm] <;> rfl
    · by_cases hu : req.upgradeHeader = some "websocket"
      · by_cases hc : req.pathEnd = slugs.CONNECT
        · by_cases hviol : enforceSingletonViolated st.registry deviceTags.PC
          · refine ⟨0, ?_, ?_⟩ <;> simp only [fetch] <;>
              rw [if_neg hm, if_neg (by simp [hu]), if_pos hc, if_pos hviol] <;> rfl
          · by_cases htok : strictTokenEq req.token st.storage.pcConnectionToken
            · refine ⟨0, ?_, ?_⟩ <;> simp only [fetch, acceptSocket] <;>
                rw [if_neg hm, if_neg (by simp [hu]), if_pos hc,
                  if_neg hviol, if_pos htok] <;> rfl
            · refine ⟨0, ?_, ?_⟩ <;> simp only [fetch] <;>
                rw [if_neg hm, if_neg (by simp [hu]), if_pos hc,
                  if_neg hviol, if_neg htok] <;> rfl
        · by_cases hj : req.pathEnd = slugs.JOIN
          · by_cases htok : strictTokenEq req.token st.storage.tabletConnectionToken
            · refine ⟨1, ?_, ?_⟩ <;> simp only [fetch, acceptSocket] <;>
                rw [if_neg hm, if_neg (by simp [hu]), if_neg hc, if_pos hj,
                  if_pos htok]
              · rw [tabletWelcomeIds, List.filterMap_append]
                have hnil : List.filterMap welcomeIdOf
                    ((getWebSockets st.registry (some labels.PC_TYPE)).map
                      (fun c => Effect.send c.handle (OutMsg.tabletConnected
                        deviceTags.TABLET (st.storage.tabletIdCounter.getD 0)
                        labels.TABLET_CONNECTED req.freshToken req.publicKey
                        req.now))) = [] := by
                  rw [List.filterMap_eq_nil_iff]
                  intro a ha
                  rcases List.mem_map.mp ha with ⟨c, _, rfl⟩
                  rfl
                rw [hnil]
                rfl
              · rfl
            · refine ⟨0, ?_, ?_⟩ <;> simp only [fetch] <;>
                rw [if_neg hm, if_neg (by simp [hu]), if_neg hc, if_pos hj,
                  if_neg htok] <;> rfl
          · refine ⟨0, ?_, ?_⟩ <;> simp only [fetch, acceptSocket] <;>
              rw [if_neg hm, if_neg (by simp [hu]), if_neg hc, if_neg hj] <;> rfl
      · refine ⟨0, ?_, ?_⟩ <;> simp only [fetch] <;>
          rw [if_neg hm, if_pos (by simp [hu])] <;> rfl
  | msgEv ws m =>
    refine ⟨0, ?_, ?_⟩
    · exact tabletWelcomeIds_webSocketMessage st.registry ws m
    · rfl
  | closeEv ws code reason =>
    refine ⟨0, ?_, ?_⟩
    · exact tabletWelcomeIds_webSocketClose _ _ reason
    · rfl
  | alarmEv now fault =>
    refine ⟨0, rfl, ?_⟩
    simp only [stepE]
    rw [counterOf_alarm]
    rfl
  | restartEv => exact ⟨0, rfl, rfl⟩

/-- Along any run, the emitted satellite ids are exactly the consecutive
integers from the starting counter, and the persisted counter ends just
past them. -/
theorem runTrace_spec (evs : List Event) : ∀ st : SessionState,
    ∃ n, (runTrace st evs).2 = List.range' (counterOf st) n ∧
      counterOf (runTrace st evs).1 = counterOf st + n := by
  induction evs with
  | nil => intro st; exact ⟨0, rfl, rfl⟩
  | cons e evs ih =>
    intro st
    obtain ⟨k, h1, h2⟩ := stepE_trace st e
    obtain ⟨n, ih1, ih2⟩ := ih (stepE st e).1
    refine ⟨k + n, ?_, ?_⟩
    · have hrt : (runTrace st (e :: evs)).2 =
          tabletWelcomeIds (stepE st e).2 ++ (runTrace (stepE st e).1 evs).2 := rfl
      rw [hrt, h1, ih1, h2, List.range'_append_1, Nat.add_comm n k]
    · have hrt : (runTrace st (e :: evs)).1 = (runTrace (stepE st e).1 evs).1 := rfl
      rw [hrt, ih2, h2]
      omega

/-- C3: starting from a fresh session, the satellite ids handed out by
successful joins along any event sequence (actor restarts included) are
exactly `0, 1, 2, …` in order — strictly increasing from 0 with no id ever
assigned twice — because the counter is persisted right after each
increment and re-read from the store at the start of each handler. -/
theorem satellite_ids_strictly_increasing (evs : List Event) :
    (runTrace initialState evs).2 =
      List.range (runTrace initialState evs).2.length ∧
    List.Chain' (· < ·) (runTrace initialState evs).2 ∧
    (runTrace initialState evs).2.Nodup := by
  obtain ⟨n, h1, _⟩ := runTrace_spec evs initialState
  have hc : counterOf initialState = 0 := rfl
  rw [hc] at h1
  have hlen : (runTrace initialState evs).2.length = n := by
    rw [h1]
    exact List.length_range' _ _ _
  refine ⟨?_, ?_, ?_⟩
  · rw [hlen, h1, List.range_eq_range']
  · rw [h1]
    exact (List.pairwise_lt_range' 0 n).chain'
  · rw [h1]
    exact List.nodup_range' 0 n

/-! ### Satellite token rotation (C2) -/

/-- The stored satellite token is not `T`. -/
def tokenAvoided (T : String) (st : SessionState) : Prop :=
  st.storage.tabletConnectionToken ≠ some T

/-- A join presenting `T` against a store whose satellite token is not `T`
fails the strict token comparison. -/
theorem strictTokenEq_false_of_avoided (T : String) (tok : Option String)
    (h : tok ≠ some T) : strictTokenEq (some T) tok = false := by
  rcases tok with _ | u
  · rfl
  · have hne : T ≠ u := fun he => h (by rw [he])
    simpa [strictTokenEq] using hne

/-- A join presenting token `T` while the store holds a different (or no)
satellite token returns 403 and leaves the state untouched, accepting
nothing. -/
theorem join_rejected (st : SessionState) (req : Request) (T : String)
    (hm : req.method ≠ "POST") (hu : req.upgradeHeader = some "websocket")
    (hp : req.pathEnd = slugs.JOIN) (htok : req.token = some T)
    (hT : tokenAvoided T st) :
    (fetch st req).status = 403 ∧ (fetch st req).state = st ∧
    (fetch st req).accepted = none := by
  have hne : req.pathEnd ≠ slugs.CONNECT := by rw [hp]; decide
  have hfalse : strictTokenEq req.token st.storage.tabletConnectionToken = false := by
    rw [htok]
    exact strictTokenEq_false_of_avoided T _ hT
  simp only [fetch]
  rw [if_neg hm, if_neg (by simp [hu]), if_neg hne, if_pos hp,
    if_neg (by simp [hfalse])]
  exact ⟨rfl, rfl, rfl⟩

/-- Any step that neither re-initializes the session nor draws `T` from
the token generator keeps the stored satellite token away from `T`. -/
theorem tokenAvoided_step (T : String) (st : SessionState) (e : Event)
    (h : tokenAvoided T st) (he : eventAvoids T e) :
    tokenAvoided T (step st e) := by
  cases e with
  | fetchEv req =>
    obtain ⟨hm, hf⟩ := he
    simp only [step, stepE]
    by_cases hu : req.upgradeHeader = some "websocket"
    · by_cases hc : req.pathEnd = slugs.CONNECT
      · by_cases hviol : enforceSingletonViolated st.registry deviceTags.PC
        · simp only [fetch]
          rw [if_neg hm, if_neg (by simp [hu]), if_pos hc, if_pos hviol]
          exact h
        · by_cases htok : strictTokenEq req.token st.storage.pcConnectionToken
          · simp only [fetch, acceptSocket]
            rw [if_neg hm, if_neg (by simp [hu]), if_pos hc,
              if_neg hviol, if_pos htok]
            exact h
          · simp only [fetch]
            rw [if_neg hm, if_neg (by simp [hu]), if_pos hc,
              if_neg hviol, if_neg htok]
            exact h
      · by_cases hj : req.pathEnd = slugs.JOIN
        · by_cases htok : strictTokenEq req.token st.storage.tabletConnectionToken
          · simp only [fetch, acceptSocket]
            rw [if_neg hm, if_neg (by simp [hu]), if_neg hc, if_pos hj,
              if_pos htok]
            show some req.freshToken ≠ some T
            simpa using hf
          · simp only [fetch]
            rw [if_neg hm, if_neg (by simp [hu]), if_neg hc, if_pos hj,
              if_neg htok]
            exact h
        · simp only [fetch, acceptSocket]
          rw [if_neg hm, if_neg (by simp [hu]), if_neg hc, if_neg hj]
          exact h
    · simp only [fetch]
      rw [if_neg hm, if_pos (by simp [hu])]
      exact h
  | msgEv ws m => exact h
  | closeEv ws code reason => exact h
  | alarmEv now fault =>
    simp only [step, stepE]
    rcases fault with _ | _
    · simp only [alarm, alarmBody, if_neg (show ¬(false = true) by decide)]
      by_cases hl : 0 < (getWebSockets st.registry none).length
      · rw [if_pos hl]
        exact h
      · rw [if_neg hl]
        intro hcontra
        exact Option.noConfusion hcontra
    · simp only [alarm, alarmBody]
      exact h
  | restartEv => exact h

/-- The avoided-token property is preserved along any run of avoiding
events. -/
theorem tokenAvoided_run (T : String) (evs : List Event) :
    ∀ st : SessionState, tokenAvoided T st → (∀ e ∈ evs, eventAvoids T e) →
    tokenAvoided T (run st evs) := by
  induction evs with
  | nil => intro st h _; exact h
  | cons e evs ih =>
    intro st h hall
    exact ih (step st e) (tokenAvoided_step T st e h (hall e (List.mem_cons_self e evs)))
      (fun e' he' => hall e' (List.mem_cons_of_mem e he'))

/-- C2: a join presenting a token other than the stored satellite token
fails with 403 and changes nothing; a successful join using token `T`
completes only after persisting a freshly generated satellite token, so —
as long as the session is not re-initialized and the generator never
returns `T` again — every later join attempt using `T` answers 403, and
only the most recently issued token can succeed. -/
theorem satellite_token_rotation (st : SessionState) (req : Request) (T : String)
    (hm : req.method ≠ "POST") (hu : req.upgradeHeader = some "websocket")
    (hp : req.pathEnd = slugs.JOIN) (htok : req.token = some T) :
    (st.storage.tabletConnectionToken ≠ some T →
      (fetch st req).status = 403 ∧ (fetch st req).state = st ∧
      (fetch st req).accepted = none) ∧
    (st.storage.tabletConnectionToken = some T →
      (fetch st req).status = 101 ∧
      (fetch st req).state.storage.tabletConnectionToken = some req.freshToken ∧
      (req.freshToken ≠ T →
        ∀ evs : List Event, (∀ e ∈ evs, eventAvoids T e) →
        ∀ req2 : Request, req2.method ≠ "POST" →
          req2.upgradeHeader = some "websocket" → req2.pathEnd = slugs.JOIN →
          req2.token = some T →
          (fetch (run (fetch st req).state evs) req2).status = 403)) := by
  constructor
  · intro hT
    exact join_rejected st req T hm hu hp htok hT
  · intro hT
    have hne : req.pathEnd ≠ slugs.CONNECT := by rw [hp]; decide
    have htrue : strictTokenEq req.token st.storage.tabletConnectionToken = true := by
      rw [htok, hT]
      simp [strictTokenEq]
    refine ⟨?_, ?_, ?_⟩
    · simp only [fetch, acceptSocket]
      rw [if_neg hm, if_neg (by simp [hu]), if_neg hne, if_pos hp, if_pos htrue]
    · simp only [fetch, acceptSocket]
      rw [if_neg hm, if_neg (by simp [hu]), if_neg hne, if_pos hp, if_pos htrue]
    · intro hf evs hall req2 hm2 hu2 hp2 htok2
      have hstart : tokenAvoided T (fetch st req).state := by
        show (fetch st req).state.storage.tabletConnectionToken ≠ some T
        have : (fetch st req).state.storage.tabletConnectionToken =
            some req.freshToken := by
          simp only [fetch, acceptSocket]
          rw [if_neg hm, if_neg (by simp [hu]), if_neg hne, if_pos hp,
            if_pos htrue]
        rw [this]
        simpa using hf
      exact (join_rejected _ req2 T hm2 hu2 hp2 htok2
        (tokenAvoided_run T evs _ hstart hall)).1

/-- C2 witness: on the initialized sample session, joining with the stored
token `T` succeeds and rotates the stored token to the fresh value, after
which an immediate replay of `T` is refused with 403. -/
theorem satellite_token_rotation_witness :
    (fetch stSample (reqUpgrade slugs.JOIN (some "T") "F")).status = 101 ∧
    (fetch stSample (reqUpgrade slugs.JOIN (some "T") "F")).state.storage.tabletConnectionToken
      = some "F" ∧
    (fetch (run (fetch stSample (reqUpgrade slugs.JOIN (some "T") "F")).state [])
      (reqUpgrade slugs.JOIN (some "T") "G")).status = 403 := by
  have h := (satellite_token_rotation stSample (reqUpgrade slugs.JOIN (some "T") "F")
    "T" (by decide) rfl rfl rfl).2 rfl
  exact ⟨h.1, h.2.1, h.2.2 (by decide) [] (by simp)
    (reqUpgrade slugs.JOIN (some "T") "G") (by decide) rfl rfl rfl⟩

end PloverRelay
